import Mathlib

/-!
# NFC-DEP (NFCIP-1) negotiation parameters of `rfal_nfcDep.h`

A shallow embedding of the constants, conversion macros and frame layouts
declared in `src/src/rfal_nfcDep.h`, followed by the properties proved
about them.

Machine integers are natural numbers; every C cast is an explicit
reduction modulo `2^w`.  `unsigned int` (the type of a `U` literal and the
type an `uint8_t`/`uint16_t` operand is promoted to when combined with
one) is taken to be 32 bits wide.
-/

namespace NfcDep

/-! ## Machine integers -/

/-- Cast to `uint8_t`. -/
def u8 (x : Nat) : Nat := x % 2 ^ 8

/-- Cast to `uint16_t`. -/
def u16 (x : Nat) : Nat := x % 2 ^ 16

/-- Cast to `uint32_t` (also the result of any `unsigned int` operation). -/
def u32 (x : Nat) : Nat := x % 2 ^ 32

/-- Modelled from the spec: the `MIN` macro comes from the platform utilities,
which are not among the sources; the spec writes the frame size as
`min(64 × (code+1), 254)`, and the macro is the usual
`(((a) < (b)) ? (a) : (b))`. -/
def MIN (a b : Nat) : Nat := if a < b then a else b

/-! ## Constants (`DEFINES`) -/

def RFAL_NFCDEP_FRAME_SIZE_MAX_LEN : Nat := 254
def RFAL_NFCDEP_DEPREQ_HEADER_LEN : Nat := 5

def RFAL_NFCDEP_SB_LEN : Nat := 1
def RFAL_NFCDEP_LEN_LEN : Nat := 1
def RFAL_NFCDEP_CMDTYPE_LEN : Nat := 1
def RFAL_NFCDEP_CMD_LEN : Nat := 1
def RFAL_NFCDEP_DID_LEN : Nat := 1
def RFAL_NFCDEP_DEP_PFB_LEN : Nat := 1

def RFAL_NFCDEP_DEP_HEADER : Nat :=
  RFAL_NFCDEP_LEN_LEN + RFAL_NFCDEP_CMDTYPE_LEN + RFAL_NFCDEP_CMD_LEN + RFAL_NFCDEP_DEP_PFB_LEN
def RFAL_NFCDEP_HEADER : Nat := RFAL_NFCDEP_CMDTYPE_LEN + RFAL_NFCDEP_CMD_LEN

def RFAL_NFCDEP_DSL_RLS_LEN_NO_DID : Nat :=
  RFAL_NFCDEP_LEN_LEN + RFAL_NFCDEP_CMDTYPE_LEN + RFAL_NFCDEP_CMD_LEN
def RFAL_NFCDEP_DSL_RLS_LEN_DID : Nat := RFAL_NFCDEP_DSL_RLS_LEN_NO_DID + RFAL_NFCDEP_DID_LEN

def RFAL_NFCDEP_FS_VAL_MIN : Nat := 64
def RFAL_NFCDEP_LR_VAL_MASK : Nat := 0x03
def RFAL_NFCDEP_PP_LR_MASK : Nat := 0x30
def RFAL_NFCDEP_PP_LR_SHIFT : Nat := 4

def RFAL_NFCDEP_DID_MAX : Nat := 14
def RFAL_NFCDEP_DID_KEEP : Nat := 0xFF
def RFAL_NFCDEP_DID_NO : Nat := 0x00
def RFAL_NFCDEP_NAD_NO : Nat := 0x00

def RFAL_NFCDEP_OPER_RTOX_REQ_DIS : Nat := 0x01
def RFAL_NFCDEP_OPER_RTOX_REQ_EN : Nat := 0x00

def RFAL_NFCDEP_OPER_ATN_DIS : Nat := 0x00
def RFAL_NFCDEP_OPER_ATN_EN : Nat := 0x02

def RFAL_NFCDEP_OPER_EMPTY_DEP_DIS : Nat := 0x04
def RFAL_NFCDEP_OPER_EMPTY_DEP_EN : Nat := 0x00

def RFAL_NFCDEP_OPER_FULL_MI_DIS : Nat := 0x00
def RFAL_NFCDEP_OPER_FULL_MI_EN : Nat := 0x08

def RFAL_NFCDEP_BRS_MAINTAIN : Nat := 0xC0
def RFAL_NFCDEP_BRS_Dx_MASK : Nat := 0x07
def RFAL_NFCDEP_BRS_DSI_POS : Nat := 3

def RFAL_NFCDEP_ATR_REQ_NFCID3_POS : Nat := 2
def RFAL_NFCDEP_NFCID3_LEN : Nat := 10

def RFAL_NFCDEP_LEN_MIN : Nat := 3
def RFAL_NFCDEP_LEN_MAX : Nat := 255

def RFAL_NFCDEP_ATRRES_HEADER_LEN : Nat := 2
def RFAL_NFCDEP_ATRRES_MIN_LEN : Nat := 17
def RFAL_NFCDEP_ATRRES_MAX_LEN : Nat := 64
def RFAL_NFCDEP_ATRREQ_MIN_LEN : Nat := 16
def RFAL_NFCDEP_ATRREQ_MAX_LEN : Nat := RFAL_NFCDEP_ATRRES_MAX_LEN

def RFAL_NFCDEP_GB_MAX_LEN : Nat := RFAL_NFCDEP_ATRREQ_MAX_LEN - RFAL_NFCDEP_ATRREQ_MIN_LEN

def RFAL_NFCDEP_WT_INI_MIN : Nat := 0
def RFAL_NFCDEP_WT_INI_MAX : Nat := 14
def RFAL_NFCDEP_WT_INI_DEFAULT : Nat := RFAL_NFCDEP_WT_INI_MAX

def RFAL_NFCDEP_WT_TRG_MAX_D10 : Nat := 8
def RFAL_NFCDEP_WT_TRG_MAX_D11 : Nat := 14
def RFAL_NFCDEP_WT_TRG_MAX : Nat := RFAL_NFCDEP_WT_TRG_MAX_D11

/-- The constant `((uint32_t)1U<<20)`. -/
def RFAL_NFCDEP_MAX_FWT : Nat := u32 (1 <<< 20)

def RFAL_NFCDEP_WT_MASK : Nat := 0x0F

/-! ## Length Reduction enumeration -/

def RFAL_NFCDEP_LR_64 : Nat := 0x00
def RFAL_NFCDEP_LR_128 : Nat := 0x01
def RFAL_NFCDEP_LR_192 : Nat := 0x02
def RFAL_NFCDEP_LR_254 : Nat := 0x03

/-! ## Conversion macros (`GLOBAL MACROS`) -/

/-- The macro
`( (uint32_t)1U << (((uint32_t)(wt) & RFAL_NFCDEP_WT_MASK) + 12U) )`. -/
def rfalNfcDepWT2RWT (wt : Nat) : Nat :=
  u32 (u32 1 <<< u32 ((u32 wt &&& RFAL_NFCDEP_WT_MASK) + 12))

/-- The constant `rfalNfcDepWT2RWT( RFAL_NFCDEP_WT_INI_MAX )`. -/
def RFAL_NFCDEP_RWT_INI_MAX : Nat := rfalNfcDepWT2RWT RFAL_NFCDEP_WT_INI_MAX

/-- The constant `rfalNfcDepWT2RWT( RFAL_NFCDEP_WT_TRG_MAX )`. -/
def RFAL_NFCDEP_RWT_TRG_MAX : Nat := rfalNfcDepWT2RWT RFAL_NFCDEP_WT_TRG_MAX

/-- The 32-bit product `RFAL_NFCDEP_FS_VAL_MIN * ((uint16_t)(LRx) + 1U)`
inside `rfalNfcDepLR2FS`. -/
def rfalNfcDepLR2FS_product (LRx : Nat) : Nat :=
  u32 (RFAL_NFCDEP_FS_VAL_MIN * u32 (u16 LRx + 1))

/-- The macro
`(uint16_t)(MIN( (RFAL_NFCDEP_FS_VAL_MIN * ((uint16_t)(LRx) + 1U) ), RFAL_NFCDEP_FRAME_SIZE_MAX_LEN ))`. -/
def rfalNfcDepLR2FS (LRx : Nat) : Nat :=
  u16 (MIN (rfalNfcDepLR2FS_product LRx) RFAL_NFCDEP_FRAME_SIZE_MAX_LEN)

/-- The macro
`( (((uint8_t)(br) & RFAL_NFCDEP_BRS_Dx_MASK) << RFAL_NFCDEP_BRS_DSI_POS) | ((uint8_t)(br) & RFAL_NFCDEP_BRS_Dx_MASK) )`. -/
def rfalNfcDepDx2BRS (br : Nat) : Nat :=
  u32 ((u8 br &&& RFAL_NFCDEP_BRS_Dx_MASK) <<< RFAL_NFCDEP_BRS_DSI_POS)
    ||| (u8 br &&& RFAL_NFCDEP_BRS_Dx_MASK)

/-- The macro `(uint8_t)( (uint8_t)(brs) & RFAL_NFCDEP_BRS_Dx_MASK )`. -/
def rfalNfcDepBRS2DRI (brs : Nat) : Nat :=
  u8 (u8 brs &&& RFAL_NFCDEP_BRS_Dx_MASK)

/-- The macro
`(uint8_t)( ((uint8_t)(brs) >> RFAL_NFCDEP_BRS_DSI_POS) & RFAL_NFCDEP_BRS_Dx_MASK )`. -/
def rfalNfcDepBRS2DSI (brs : Nat) : Nat :=
  u8 ((u8 brs >>> RFAL_NFCDEP_BRS_DSI_POS) &&& RFAL_NFCDEP_BRS_Dx_MASK)

/-- The macro `( ((uint8_t)(PPx) & RFAL_NFCDEP_PP_LR_MASK ) >> RFAL_NFCDEP_PP_LR_SHIFT)`. -/
def rfalNfcDepPP2LR (PPx : Nat) : Nat :=
  (u8 PPx &&& RFAL_NFCDEP_PP_LR_MASK) >>> RFAL_NFCDEP_PP_LR_SHIFT

/-- The macro `( ((uint8_t)(LRx) << RFAL_NFCDEP_PP_LR_SHIFT) & RFAL_NFCDEP_PP_LR_MASK)`. -/
def rfalNfcDepLR2PP (LRx : Nat) : Nat :=
  u32 (u8 LRx <<< RFAL_NFCDEP_PP_LR_SHIFT) &&& RFAL_NFCDEP_PP_LR_MASK

/-! ## Memory and `rfalNfcDepSetNFCID`

A buffer is the list of the bytes it holds, starting at the address the
pointer holds.  An access past the end of a buffer has no defined result,
so the operations are partial. -/

/-- Modelled from the spec: `ST_MEMSET` is a platform macro that is not among
the sources; it is the C library `memset`, which stores the byte `c` in
the first `n` bytes of `dst`. -/
def ST_MEMSET (dst : List Nat) (c n : Nat) : Option (List Nat) :=
  if n ≤ dst.length then some (List.replicate n (u8 c) ++ dst.drop n) else none

/-- Modelled from the spec: `ST_MEMCPY` is a platform macro that is not among
the sources; it is the C library `memcpy`, which copies the first `n`
bytes of `src` over the first `n` bytes of `dst`. -/
def ST_MEMCPY (dst src : List Nat) (n : Nat) : Option (List Nat) :=
  if n ≤ dst.length ∧ n ≤ src.length then some (src.take n ++ dst.drop n) else none

/-- The macro
`ST_MEMSET( (dst), 0x00, RFAL_NFCDEP_NFCID3_LEN ); if( (len) > 0U ) {ST_MEMCPY( (dst), (src), (len) );}`,
returning the contents of `dst` afterwards. -/
def rfalNfcDepSetNFCID (dst src : List Nat) (len : Nat) : Option (List Nat) :=
  match ST_MEMSET dst 0x00 RFAL_NFCDEP_NFCID3_LEN with
  | none => none
  | some d => if len > 0 then ST_MEMCPY d src len else some d

/-! ## Activation frames (`GLOBAL DATA TYPES`) -/

/-- The type `rfalNfcDepAtrReq`: ATR_REQ command, Digital 1.1 16.6.2. -/
structure rfalNfcDepAtrReq where
  CMD1 : Nat
  CMD2 : Nat
  NFCID3 : Fin RFAL_NFCDEP_NFCID3_LEN → Nat
  DID : Nat
  BSi : Nat
  BRi : Nat
  PPi : Nat
  GBi : Fin RFAL_NFCDEP_GB_MAX_LEN → Nat

/-- The type `rfalNfcDepAtrRes`: ATR_RES response, Digital 1.1 16.6.3. -/
structure rfalNfcDepAtrRes where
  CMD1 : Nat
  CMD2 : Nat
  NFCID3 : Fin RFAL_NFCDEP_NFCID3_LEN → Nat
  DID : Nat
  BSt : Nat
  BRt : Nat
  TO : Nat
  PPt : Nat
  GBt : Fin RFAL_NFCDEP_GB_MAX_LEN → Nat

/-- The bytes of an ATR_REQ carrying the first `g` general bytes, in the order
the fields of `rfalNfcDepAtrReq` are declared (every field is `uint8_t`, so
the structure has no padding). -/
def rfalNfcDepAtrReq.frame (r : rfalNfcDepAtrReq) (g : Nat) : List Nat :=
  [r.CMD1, r.CMD2] ++ List.ofFn r.NFCID3 ++ [r.DID, r.BSi, r.BRi, r.PPi]
    ++ (List.ofFn r.GBi).take g

/-- The bytes of an ATR_RES carrying the first `g` general bytes, in the order
the fields of `rfalNfcDepAtrRes` are declared. -/
def rfalNfcDepAtrRes.frame (r : rfalNfcDepAtrRes) (g : Nat) : List Nat :=
  [r.CMD1, r.CMD2] ++ List.ofFn r.NFCID3 ++ [r.DID, r.BSt, r.BRt, r.TO, r.PPt]
    ++ (List.ofFn r.GBt).take g

/-- An ATR_REQ whose fields are all zero but the command bytes `D4 00`. -/
def atrReqZero : rfalNfcDepAtrReq :=
  ⟨0xD4, 0x00, fun _ => 0, 0, 0, 0, 0, fun _ => 0⟩

/-- An ATR_RES whose fields are all zero but the command bytes `D5 01`. -/
def atrResZero : rfalNfcDepAtrRes :=
  ⟨0xD5, 0x01, fun _ => 0, 0, 0, 0, 0, 0, fun _ => 0⟩

/-! ## Data exchange: chaining of Information PDUs -/

/-- Modelled from the spec: the data-exchange engine lives in `rfal_nfcDep.c`,
which is not among the sources.  An Information PDU carries a payload chunk,
the chaining flag and the sequence number (PNI). -/
structure InformationPdu where
  pni : Nat
  chaining : Bool
  inf : List Nat
deriving DecidableEq

/-- Modelled from the spec: the outbound half of the data-exchange engine,
not among the sources.  A payload is cut into Information PDUs of at most
`cap` bytes; every PDU but the last carries chaining = true, and the sequence
counter advances by 1 modulo 4 from one PDU to the next.  The first argument
after `cap` bounds the number of PDUs still to be cut. -/
def depTxChunks (cap : Nat) : Nat → Nat → List Nat → List InformationPdu
  | 0, pni, payload => [⟨pni, false, payload⟩]
  | fuel + 1, pni, payload =>
    if payload.length ≤ cap then [⟨pni, false, payload⟩]
    else ⟨pni, true, payload.take cap⟩
      :: depTxChunks cap fuel ((pni + 1) % 4) (payload.drop cap)

/-- Modelled from the spec: the Information PDUs the engine yields for a
payload at the negotiated frame size `fs`, each of at most
`frame size − header length` bytes, the header length being
`RFAL_NFCDEP_DEPREQ_HEADER_LEN`; `pni` is the current sequence counter. -/
def depFragment (fs pni : Nat) (payload : List Nat) : List InformationPdu :=
  depTxChunks (fs - RFAL_NFCDEP_DEPREQ_HEADER_LEN) payload.length pni payload

/-- Modelled from the spec: what the inbound half of the engine, not among the
sources, reports for one received Information PDU. -/
inductive DepRxStatus where
  | morePending
  | complete
  | retransmission
deriving DecidableEq

/-- Modelled from the spec: the receive state of the engine, not among the
sources: the sequence number expected next and the receive buffer of the
caller. -/
structure DepRxState where
  expected : Nat
  rxBuf : List Nat
deriving DecidableEq

/-- Modelled from the spec: one inbound step of the engine, not among the
sources.  A PDU whose sequence number is not the expected one is not new
data; otherwise its payload is appended to the receive buffer, and the
engine reports more data pending when chaining = true and completes the
receive when chaining = false. -/
def depRxStep (s : DepRxState) (p : InformationPdu) : DepRxState × DepRxStatus :=
  if p.pni ≠ s.expected then (s, DepRxStatus.retransmission)
  else if p.chaining then
    (⟨(s.expected + 1) % 4, s.rxBuf ++ p.inf⟩, DepRxStatus.morePending)
  else (⟨(s.expected + 1) % 4, s.rxBuf ++ p.inf⟩, DepRxStatus.complete)

/-- Modelled from the spec: the inbound half of the engine, not among the
sources, run over the PDUs received in order.  It returns the reassembled
payload with the PDUs left over after the completing one, and nothing when
the PDUs end before a PDU with chaining = false or one is out of sequence. -/
def depReassemble (s : DepRxState) : List InformationPdu → Option (List Nat × List InformationPdu)
  | [] => none
  | p :: rest =>
    match depRxStep s p with
    | (s2, DepRxStatus.morePending) => depReassemble s2 rest
    | (s2, DepRxStatus.complete) => some (s2.rxBuf, rest)
    | (_, DepRxStatus.retransmission) => none

/-! ## Frame size from the length reduction -/

theorem u32_of_lt {x : Nat} (h : x < 2 ^ 32) : u32 x = x := Nat.mod_eq_of_lt h

theorem u16_lt (x : Nat) : u16 x < 2 ^ 16 := Nat.mod_lt _ (by norm_num)

theorem u8_lt (x : Nat) : u8 x < 2 ^ 8 := Nat.mod_lt _ (by norm_num)

theorem u16_of_lt {x : Nat} (h : x < 2 ^ 16) : u16 x = x := Nat.mod_eq_of_lt h

theorem u8_of_lt {x : Nat} (h : x < 2 ^ 8) : u8 x = x := Nat.mod_eq_of_lt h

theorem MIN_eq_min (a b : Nat) : MIN a b = min a b := by
  unfold MIN
  split <;> omega

/-- The product inside `rfalNfcDepLR2FS` never wraps. -/
theorem LR2FS_product_eq (LRx : Nat) :
    rfalNfcDepLR2FS_product LRx = 64 * (u16 LRx + 1) := by
  have h := u16_lt LRx
  unfold rfalNfcDepLR2FS_product RFAL_NFCDEP_FS_VAL_MIN
  rw [u32_of_lt (x := u16 LRx + 1) (by omega), u32_of_lt (by omega)]

/-- Closed form of `rfalNfcDepLR2FS` on every argument. -/
theorem LR2FS_eq (LRx : Nat) : rfalNfcDepLR2FS LRx = min (64 * (u16 LRx + 1)) 254 := by
  unfold rfalNfcDepLR2FS RFAL_NFCDEP_FRAME_SIZE_MAX_LEN
  rw [LR2FS_product_eq, MIN_eq_min]
  exact u16_of_lt (by omega)

/-- C1: for every length-reduction code `c` in 0..3 the frame size is
`min(64*(c+1), 254)`, hence one of 64, 128, 192, 254, and the codes
`RFAL_NFCDEP_LR_64/128/192/254` map to 64/128/192/254. -/
theorem C1_LR2FS_codes (c : Nat) (hc : c ≤ 3) :
    rfalNfcDepLR2FS c = min (64 * (c + 1)) 254
      ∧ (rfalNfcDepLR2FS c = 64 ∨ rfalNfcDepLR2FS c = 128
          ∨ rfalNfcDepLR2FS c = 192 ∨ rfalNfcDepLR2FS c = 254)
      ∧ rfalNfcDepLR2FS 0 = 64 ∧ rfalNfcDepLR2FS 1 = 128
      ∧ rfalNfcDepLR2FS 2 = 192 ∧ rfalNfcDepLR2FS 3 = 254
      ∧ rfalNfcDepLR2FS RFAL_NFCDEP_LR_64 = 64 ∧ rfalNfcDepLR2FS RFAL_NFCDEP_LR_128 = 128
      ∧ rfalNfcDepLR2FS RFAL_NFCDEP_LR_192 = 192 ∧ rfalNfcDepLR2FS RFAL_NFCDEP_LR_254 = 254 := by
  have hu : u16 c = c := u16_of_lt (by omega)
  refine ⟨?_, ?_, by decide, by decide, by decide, by decide,
    by decide, by decide, by decide, by decide⟩
  · rw [LR2FS_eq, hu]
  · rw [LR2FS_eq, hu]
    omega

/-- C1 at the code 3, the only one the cap of 254 applies to. -/
theorem C1_LR2FS_codes_witness :
    rfalNfcDepLR2FS 3 = min (64 * (3 + 1)) 254 ∧ rfalNfcDepLR2FS 3 = 254 :=
  ⟨(C1_LR2FS_codes 3 (by decide)).1, (C1_LR2FS_codes 3 (by decide)).2.2.2.2.2.1⟩

/-- C2: negotiating the length reduction as the minimum of the two codes
gives the smaller of the two frame sizes, for all codes `a`, `b` in 0..3;
local code 3 against peer code 1 gives 128. -/
theorem C2_LR2FS_min (a b : Nat) (ha : a ≤ 3) (hb : b ≤ 3) :
    rfalNfcDepLR2FS (min a b) = min (rfalNfcDepLR2FS a) (rfalNfcDepLR2FS b)
      ∧ rfalNfcDepLR2FS (min 3 1) = 128 := by
  have hua : u16 a = a := u16_of_lt (by omega)
  have hub : u16 b = b := u16_of_lt (by omega)
  have hum : u16 (min a b) = min a b := u16_of_lt (by omega)
  refine ⟨?_, by decide⟩
  rw [LR2FS_eq, LR2FS_eq, LR2FS_eq, hua, hub, hum]
  omega

/-- C2 at local code 3 and peer code 1. -/
theorem C2_LR2FS_min_witness :
    rfalNfcDepLR2FS (min 3 1) = min (rfalNfcDepLR2FS 3) (rfalNfcDepLR2FS 1)
      ∧ min (rfalNfcDepLR2FS 3) (rfalNfcDepLR2FS 1) = 128 :=
  ⟨(C2_LR2FS_min 3 1 (by decide) (by decide)).1, by decide⟩

/-- C5: `rfalNfcDepLR2FS` is total; for every argument in 0..65535 the
32-bit product `64*(LRx+1)` does not wrap, the result lies between
`RFAL_NFCDEP_FS_VAL_MIN` (64) and `RFAL_NFCDEP_FRAME_SIZE_MAX_LEN` (254), and
the final cast to `uint16_t` loses nothing. -/
theorem C5_LR2FS_range (LRx : Nat) (h : LRx ≤ 65535) :
    RFAL_NFCDEP_FS_VAL_MIN * (LRx + 1) < 2 ^ 32
      ∧ rfalNfcDepLR2FS_product LRx = RFAL_NFCDEP_FS_VAL_MIN * (LRx + 1)
      ∧ MIN (rfalNfcDepLR2FS_product LRx) RFAL_NFCDEP_FRAME_SIZE_MAX_LEN < 2 ^ 16
      ∧ rfalNfcDepLR2FS LRx = MIN (RFAL_NFCDEP_FS_VAL_MIN * (LRx + 1)) RFAL_NFCDEP_FRAME_SIZE_MAX_LEN
      ∧ RFAL_NFCDEP_FS_VAL_MIN ≤ rfalNfcDepLR2FS LRx
      ∧ rfalNfcDepLR2FS LRx ≤ RFAL_NFCDEP_FRAME_SIZE_MAX_LEN := by
  have hu : u16 LRx = LRx := u16_of_lt (by omega)
  have hp := LR2FS_product_eq LRx
  have hf := LR2FS_eq LRx
  rw [hu] at hp hf
  rw [hp, hf, MIN_eq_min, MIN_eq_min]
  unfold RFAL_NFCDEP_FS_VAL_MIN RFAL_NFCDEP_FRAME_SIZE_MAX_LEN
  omega

/-- C5 at the largest argument, 65535. -/
theorem C5_LR2FS_range_witness :
    RFAL_NFCDEP_FS_VAL_MIN * (65535 + 1) < 2 ^ 32
      ∧ rfalNfcDepLR2FS 65535 = 254 :=
  ⟨(C5_LR2FS_range 65535 (by decide)).1, by decide⟩

/-! ## Response waiting time from the wait-time code -/

/-- Closed form of `rfalNfcDepWT2RWT` on every argument: only the low four
bits of the argument are used and the shift never leaves 32 bits. -/
theorem WT2RWT_eq (wt : Nat) : rfalNfcDepWT2RWT wt = 2 ^ (wt % 16 + 12) := by
  have hmask : u32 wt &&& RFAL_NFCDEP_WT_MASK = wt % 16 := by
    have h := Nat.and_pow_two_sub_one_eq_mod (u32 wt) 4
    have h2 : u32 wt % 2 ^ 4 = wt % 16 := by
      unfold u32
      omega
    rw [h2] at h
    exact h
  have hlt : wt % 16 + 12 < 32 := by omega
  have hpow : 2 ^ (wt % 16 + 12) < 2 ^ 32 := Nat.pow_lt_pow_right (by norm_num) hlt
  unfold rfalNfcDepWT2RWT
  rw [hmask, u32_of_lt (x := 1) (by norm_num), u32_of_lt (x := wt % 16 + 12) (by omega),
    Nat.one_shiftLeft, u32_of_lt hpow]

theorem MAX_FWT_eq : RFAL_NFCDEP_MAX_FWT = 2 ^ 20 := by decide

/-- On a four-bit code the mask changes nothing. -/
theorem WT2RWT_code (w : Nat) (hw : w ≤ 15) : rfalNfcDepWT2RWT w = 2 ^ (w + 12) := by
  rw [WT2RWT_eq, Nat.mod_eq_of_lt (by omega)]

/-- C3: for every wait-time code `w` in 0..14 the response waiting time is
`2^(w+12)`, in units of 1/fc. -/
theorem C3_WT2RWT_pow (w : Nat) (hw : w ≤ 14) : rfalNfcDepWT2RWT w = 2 ^ (w + 12) :=
  WT2RWT_code w (by omega)

/-- C3 at the largest code, 14. -/
theorem C3_WT2RWT_pow_witness : rfalNfcDepWT2RWT 14 = 2 ^ (14 + 12) :=
  C3_WT2RWT_pow 14 (by decide)

/-- C4, as stated, fails: the wait-time code 14 is in 0..14 and its waiting
time, which is also `RFAL_NFCDEP_RWT_INI_MAX` and `RFAL_NFCDEP_RWT_TRG_MAX`,
exceeds `RFAL_NFCDEP_MAX_FWT`. -/
theorem C4_counterexample :
    ¬ (∀ w, w ≤ 14 → rfalNfcDepWT2RWT w ≤ RFAL_NFCDEP_MAX_FWT)
      ∧ ¬ (RFAL_NFCDEP_RWT_INI_MAX ≤ RFAL_NFCDEP_MAX_FWT)
      ∧ ¬ (RFAL_NFCDEP_RWT_TRG_MAX ≤ RFAL_NFCDEP_MAX_FWT) := by
  refine ⟨fun h => ?_, by decide, by decide⟩
  exact absurd (h 14 (by decide)) (by decide)

/-- C4, amended: the macro does not clamp.  For every wait-time code `w` in
0..14 the waiting time is at most `2^26 = 64 * RFAL_NFCDEP_MAX_FWT`, the value
of `RFAL_NFCDEP_RWT_INI_MAX` and `RFAL_NFCDEP_RWT_TRG_MAX`; it is at most
`RFAL_NFCDEP_MAX_FWT = 2^20` for the codes 0..8. -/
theorem C4_WT2RWT_bound (w : Nat) (hw : w ≤ 14) :
    rfalNfcDepWT2RWT w ≤ 64 * RFAL_NFCDEP_MAX_FWT
      ∧ (w ≤ 8 → rfalNfcDepWT2RWT w ≤ RFAL_NFCDEP_MAX_FWT)
      ∧ RFAL_NFCDEP_MAX_FWT = 2 ^ 20
      ∧ RFAL_NFCDEP_RWT_INI_MAX = 2 ^ 26
      ∧ RFAL_NFCDEP_RWT_TRG_MAX = 2 ^ 26 := by
  refine ⟨?_, fun h8 => ?_, MAX_FWT_eq, by decide, by decide⟩
  · rw [WT2RWT_code w (by omega), MAX_FWT_eq]
    calc 2 ^ (w + 12) ≤ 2 ^ 26 := Nat.pow_le_pow_right (by norm_num) (by omega)
      _ = 64 * 2 ^ 20 := by norm_num
  · rw [WT2RWT_code w (by omega), MAX_FWT_eq]
    exact Nat.pow_le_pow_right (by norm_num) (by omega)

/-- C4, amended, at the code 8, where the bound `2^20` is reached. -/
theorem C4_WT2RWT_bound_witness :
    rfalNfcDepWT2RWT 8 ≤ 64 * RFAL_NFCDEP_MAX_FWT
      ∧ rfalNfcDepWT2RWT 8 ≤ RFAL_NFCDEP_MAX_FWT :=
  ⟨(C4_WT2RWT_bound 8 (by decide)).1, (C4_WT2RWT_bound 8 (by decide)).2.1 (by decide)⟩

/-! ## Bit rates in the BRS byte -/

theorem and_7_eq_mod (x : Nat) : x &&& 0x07 = x % 8 :=
  Nat.and_pow_two_sub_one_eq_mod x 3

/-- Closed form of `rfalNfcDepBRS2DRI`: the low three bits. -/
theorem BRS2DRI_eq (brs : Nat) : rfalNfcDepBRS2DRI brs = brs % 8 := by
  unfold rfalNfcDepBRS2DRI RFAL_NFCDEP_BRS_Dx_MASK
  rw [and_7_eq_mod]
  unfold u8
  omega

/-- Closed form of `rfalNfcDepBRS2DSI`: the three bits from bit 3 up. -/
theorem BRS2DSI_eq (brs : Nat) : rfalNfcDepBRS2DSI brs = brs / 8 % 8 := by
  unfold rfalNfcDepBRS2DSI RFAL_NFCDEP_BRS_Dx_MASK RFAL_NFCDEP_BRS_DSI_POS
  rw [and_7_eq_mod, Nat.shiftRight_eq_div_pow]
  unfold u8
  omega

/-- Closed form of `rfalNfcDepDx2BRS`: the three-bit code, twice. -/
theorem Dx2BRS_eq (br : Nat) : rfalNfcDepDx2BRS br = 9 * (br % 8) := by
  have hx : u8 br &&& RFAL_NFCDEP_BRS_Dx_MASK = br % 8 := by
    unfold RFAL_NFCDEP_BRS_Dx_MASK
    rw [and_7_eq_mod]
    unfold u8
    omega
  unfold rfalNfcDepDx2BRS
  rw [hx]
  have h8 : br % 8 < 8 := Nat.mod_lt _ (by norm_num)
  generalize br % 8 = x at h8
  interval_cases x <;> decide

/-- C6: packing a bit-rate code with `rfalNfcDepDx2BRS` and unpacking it with
`rfalNfcDepBRS2DRI` or with `rfalNfcDepBRS2DSI` gives the code back, for every
code in 0..7; for every byte both give the byte masked with `0x07`. -/
theorem C6_Dx2BRS_roundtrip (br : Nat) (hbr : br ≤ 7) :
    rfalNfcDepBRS2DRI (rfalNfcDepDx2BRS br) = br
      ∧ rfalNfcDepBRS2DSI (rfalNfcDepDx2BRS br) = br
      ∧ ∀ b, rfalNfcDepBRS2DRI (rfalNfcDepDx2BRS b) = b &&& 0x07
          ∧ rfalNfcDepBRS2DSI (rfalNfcDepDx2BRS b) = b &&& 0x07 := by
  have key : ∀ b, rfalNfcDepBRS2DRI (rfalNfcDepDx2BRS b) = b % 8
      ∧ rfalNfcDepBRS2DSI (rfalNfcDepDx2BRS b) = b % 8 := by
    intro b
    rw [BRS2DRI_eq, BRS2DSI_eq, Dx2BRS_eq]
    have h8 : b % 8 < 8 := Nat.mod_lt _ (by norm_num)
    generalize b % 8 = x at h8
    interval_cases x <;> decide
  refine ⟨?_, ?_, fun b => ?_⟩
  · rw [(key br).1]
    omega
  · rw [(key br).2]
    omega
  · rw [and_7_eq_mod]
    exact key b

/-- C6 at the code 5: the packed byte is `0x2D` and both fields read 5. -/
theorem C6_Dx2BRS_roundtrip_witness :
    rfalNfcDepDx2BRS 5 = 0x2D
      ∧ rfalNfcDepBRS2DRI (rfalNfcDepDx2BRS 5) = 5
      ∧ rfalNfcDepBRS2DSI (rfalNfcDepDx2BRS 5) = 5 :=
  ⟨by decide, (C6_Dx2BRS_roundtrip 5 (by decide)).1, (C6_Dx2BRS_roundtrip 5 (by decide)).2.1⟩

/-- C7, as stated, fails at the byte `0x08`: the send code
`rfalNfcDepBRS2DSI` is 1, not `0x08 & 0x07 = 0`, and the receive code
`rfalNfcDepBRS2DRI` is 0, not `(0x08 >> 3) & 0x07 = 1`. -/
theorem C7_counterexample :
    rfalNfcDepBRS2DSI 0x08 = 1 ∧ 0x08 &&& 0x07 = 0
      ∧ rfalNfcDepBRS2DRI 0x08 = 0 ∧ (0x08 >>> 3) &&& 0x07 = 1
      ∧ ¬ (rfalNfcDepBRS2DSI 0x08 = 0x08 &&& 0x07)
      ∧ ¬ (rfalNfcDepBRS2DRI 0x08 = (0x08 >>> 3) &&& 0x07) := by
  decide

/-- C7, amended: in the BRS byte the Target-to-Initiator (receive) code
`rfalNfcDepBRS2DRI` is the low three bits and the Initiator-to-Target (send)
code `rfalNfcDepBRS2DSI` is the three-bit field at `RFAL_NFCDEP_BRS_DSI_POS`,
for every byte. -/
theorem C7_BRS_fields (brs : Nat) :
    rfalNfcDepBRS2DRI brs = brs &&& 0x07
      ∧ rfalNfcDepBRS2DSI brs = (brs >>> 3) &&& 0x07
      ∧ RFAL_NFCDEP_BRS_DSI_POS = 3 := by
  refine ⟨?_, ?_, rfl⟩
  · rw [BRS2DRI_eq, and_7_eq_mod]
  · rw [BRS2DSI_eq, and_7_eq_mod, Nat.shiftRight_eq_div_pow]

/-! ## Length of the activation frames -/

theorem AtrReq_frame_length (r : rfalNfcDepAtrReq) (g : Nat) :
    (r.frame g).length = 16 + min g 48 := by
  have hgb : RFAL_NFCDEP_GB_MAX_LEN = 48 := by decide
  have hid : RFAL_NFCDEP_NFCID3_LEN = 10 := rfl
  simp only [rfalNfcDepAtrReq.frame, List.length_append, List.length_cons, List.length_nil,
    List.length_take, List.length_ofFn, hgb, hid]

theorem AtrRes_frame_length (r : rfalNfcDepAtrRes) (g : Nat) :
    (r.frame g).length = 17 + min g 48 := by
  have hgb : RFAL_NFCDEP_GB_MAX_LEN = 48 := by decide
  have hid : RFAL_NFCDEP_NFCID3_LEN = 10 := rfl
  simp only [rfalNfcDepAtrRes.frame, List.length_append, List.length_cons, List.length_nil,
    List.length_take, List.length_ofFn, hgb, hid]

/-- C8, as stated, fails at `g = RFAL_NFCDEP_GB_MAX_LEN = 48`: an ATR_RES with
48 general bytes is 65 bytes long, more than `RFAL_NFCDEP_ATRRES_MAX_LEN`. -/
theorem C8_counterexample :
    RFAL_NFCDEP_GB_MAX_LEN = 48
      ∧ (atrResZero.frame RFAL_NFCDEP_GB_MAX_LEN).length = 65
      ∧ ¬ ((atrResZero.frame RFAL_NFCDEP_GB_MAX_LEN).length ≤ RFAL_NFCDEP_ATRRES_MAX_LEN) := by
  have hgb : RFAL_NFCDEP_GB_MAX_LEN = 48 := by decide
  have hlen := AtrRes_frame_length atrResZero RFAL_NFCDEP_GB_MAX_LEN
  rw [hgb] at hlen ⊢
  refine ⟨rfl, hlen, ?_⟩
  rw [hlen]
  decide

/-- C8, amended: an ATR_RES laid out as `rfalNfcDepAtrRes` with `g` general
bytes, `g` at most `RFAL_NFCDEP_GB_MAX_LEN` (48), is `17 + g` bytes long; the
length is at least `RFAL_NFCDEP_ATRRES_MIN_LEN` (17), and it is at most
`RFAL_NFCDEP_ATRRES_MAX_LEN` (64) exactly when `g` is at most 47. -/
theorem C8_AtrRes_length (r : rfalNfcDepAtrRes) (g : Nat) (hg : g ≤ RFAL_NFCDEP_GB_MAX_LEN) :
    (r.frame g).length = 17 + g
      ∧ RFAL_NFCDEP_ATRRES_MIN_LEN ≤ (r.frame g).length
      ∧ ((r.frame g).length ≤ RFAL_NFCDEP_ATRRES_MAX_LEN ↔ g ≤ 47)
      ∧ RFAL_NFCDEP_ATRRES_MIN_LEN = 17 ∧ RFAL_NFCDEP_ATRRES_MAX_LEN = 64 := by
  have hgb : RFAL_NFCDEP_GB_MAX_LEN = 48 := by decide
  rw [hgb] at hg
  have hlen := AtrRes_frame_length r g
  rw [Nat.min_eq_left hg] at hlen
  rw [hlen]
  unfold RFAL_NFCDEP_ATRRES_MIN_LEN RFAL_NFCDEP_ATRRES_MAX_LEN
  omega

/-- C8, amended, at 47 general bytes, the longest ATR_RES within the bounds. -/
theorem C8_AtrRes_length_witness :
    (atrResZero.frame 47).length = 17 + 47
      ∧ RFAL_NFCDEP_ATRRES_MIN_LEN ≤ (atrResZero.frame 47).length
      ∧ (atrResZero.frame 47).length ≤ RFAL_NFCDEP_ATRRES_MAX_LEN :=
  ⟨(C8_AtrRes_length atrResZero 47 (by decide)).1,
    (C8_AtrRes_length atrResZero 47 (by decide)).2.1,
    (C8_AtrRes_length atrResZero 47 (by decide)).2.2.1.mpr (by decide)⟩

/-- C9: `RFAL_NFCDEP_GB_MAX_LEN` is 48, and an ATR_REQ laid out as
`rfalNfcDepAtrReq` with `g` general bytes, `g` at most 48, is `16 + g` bytes
long, between `RFAL_NFCDEP_ATRREQ_MIN_LEN` (16, reached at `g = 0`) and
`RFAL_NFCDEP_ATRREQ_MAX_LEN` (64, reached at `g = 48`). -/
theorem C9_AtrReq_length (r : rfalNfcDepAtrReq) (g : Nat) (hg : g ≤ 48) :
    RFAL_NFCDEP_GB_MAX_LEN = 48
      ∧ (r.frame g).length = 16 + g
      ∧ RFAL_NFCDEP_ATRREQ_MIN_LEN ≤ (r.frame g).length
      ∧ (r.frame g).length ≤ RFAL_NFCDEP_ATRREQ_MAX_LEN
      ∧ RFAL_NFCDEP_ATRREQ_MIN_LEN = 16 ∧ RFAL_NFCDEP_ATRREQ_MAX_LEN = 64
      ∧ (r.frame 0).length = RFAL_NFCDEP_ATRREQ_MIN_LEN
      ∧ (r.frame 48).length = RFAL_NFCDEP_ATRREQ_MAX_LEN := by
  have hlen := AtrReq_frame_length r g
  rw [Nat.min_eq_left hg] at hlen
  have h0 := AtrReq_frame_length r 0
  have h48 := AtrReq_frame_length r 48
  have hmax : RFAL_NFCDEP_ATRREQ_MAX_LEN = 64 := rfl
  have hmin : RFAL_NFCDEP_ATRREQ_MIN_LEN = 16 := rfl
  rw [hlen, h0, h48, hmax, hmin]
  refine ⟨by decide, rfl, ?_, ?_, rfl, rfl, by decide, by decide⟩ <;> omega

/-- C9 at 48 general bytes, the longest ATR_REQ. -/
theorem C9_AtrReq_length_witness :
    (atrReqZero.frame 48).length = 16 + 48
      ∧ (atrReqZero.frame 48).length ≤ RFAL_NFCDEP_ATRREQ_MAX_LEN :=
  ⟨(C9_AtrReq_length atrReqZero 48 (by decide)).2.1,
    (C9_AtrReq_length atrReqZero 48 (by decide)).2.2.2.1⟩

/-! ## Zero-padding of the NFCID3 -/

/-- The contents of the destination after `rfalNfcDepSetNFCID`: the first `len`
bytes of the source, zeros up to ten bytes, and the destination beyond
those untouched. -/
theorem SetNFCID_eq (dst src : List Nat) (len : Nat)
    (hd : RFAL_NFCDEP_NFCID3_LEN ≤ dst.length) (hl : len ≤ RFAL_NFCDEP_NFCID3_LEN)
    (hs : len ≤ src.length) :
    rfalNfcDepSetNFCID dst src len
      = some (src.take len ++ (List.replicate (10 - len) 0 ++ dst.drop 10)) := by
  have hid : RFAL_NFCDEP_NFCID3_LEN = 10 := rfl
  rw [hid] at hd hl
  have hset : ST_MEMSET dst 0x00 RFAL_NFCDEP_NFCID3_LEN
      = some (List.replicate 10 0 ++ dst.drop 10) := by
    unfold ST_MEMSET
    rw [hid, if_pos hd]
    rfl
  unfold rfalNfcDepSetNFCID
  rw [hset]
  simp only
  by_cases h0 : len > 0
  · rw [if_pos h0]
    unfold ST_MEMCPY
    have hlen : (List.replicate 10 0 ++ List.drop 10 dst).length = dst.length := by
      simp only [List.length_append, List.length_replicate, List.length_drop]
      omega
    rw [if_pos ⟨by omega, hs⟩]
    congr 2
    rw [List.drop_append_of_le_length (by simp only [List.length_replicate]; exact hl),
      List.drop_replicate]
  · have hz : len = 0 := by omega
    subst hz
    rw [if_neg h0]
    rfl

/-- C10: `rfalNfcDepSetNFCID` zero-pads the identifier to 10 bytes: for every
source and every `len` from 0 to `RFAL_NFCDEP_NFCID3_LEN` (10) it succeeds, and
afterwards `dst[i] = src[i]` for `i < len` and `dst[i] = 0` for `len ≤ i < 10`;
bytes of the destination buffer beyond the tenth keep their value. -/
theorem C10_SetNFCID (dst src : List Nat) (len : Nat)
    (hd : RFAL_NFCDEP_NFCID3_LEN ≤ dst.length) (hl : len ≤ RFAL_NFCDEP_NFCID3_LEN)
    (hs : len ≤ src.length) :
    ∃ d, rfalNfcDepSetNFCID dst src len = some d
      ∧ d.length = dst.length
      ∧ (∀ i, i < len → d[i]? = src[i]?)
      ∧ (∀ i, len ≤ i → i < RFAL_NFCDEP_NFCID3_LEN → d[i]? = some 0)
      ∧ (∀ i, RFAL_NFCDEP_NFCID3_LEN ≤ i → d[i]? = dst[i]?) := by
  refine ⟨_, SetNFCID_eq dst src len hd hl hs, ?_, ?_, ?_, ?_⟩
  all_goals
    have hid : RFAL_NFCDEP_NFCID3_LEN = 10 := rfl
    rw [hid] at hd hl
    have htake : (src.take len).length = len := by
      rw [List.length_take]; omega
  · simp only [List.length_append, htake, List.length_replicate, List.length_drop]
    omega
  · intro i hi
    rw [List.getElem?_append_left (by omega), List.getElem?_take_of_lt hi]
  · intro i h1 h2
    rw [hid] at h2
    rw [List.getElem?_append_right (by omega), htake,
      List.getElem?_append_left (by simp only [List.length_replicate]; omega),
      List.getElem?_replicate, if_pos (by omega)]
  · intro i h1
    rw [hid] at h1
    rw [List.getElem?_append_right (by omega), htake,
      List.getElem?_append_right (by simp only [List.length_replicate]; omega),
      List.length_replicate, List.getElem?_drop]
    congr 1
    omega

/-- C10 at an 8-byte NFCID: the copy succeeds, the first byte is copied and
the last two bytes are 0. -/
theorem C10_SetNFCID_witness :
    ∃ d, rfalNfcDepSetNFCID [9, 9, 9, 9, 9, 9, 9, 9, 9, 9] [1, 2, 3, 4, 5, 6, 7, 8] 8 = some d
      ∧ d.length = 10 ∧ d[0]? = some 1 ∧ d[8]? = some 0 ∧ d[9]? = some 0 := by
  obtain ⟨d, h, hlen, hcopy, hzero, _⟩ :=
    C10_SetNFCID [9, 9, 9, 9, 9, 9, 9, 9, 9, 9] [1, 2, 3, 4, 5, 6, 7, 8] 8
      (by decide) (by decide) (by decide)
  exact ⟨d, h, hlen, hcopy 0 (by decide), hzero 8 (by decide) (by decide),
    hzero 9 (by decide) (by decide)⟩

/-! ## Length reduction in the PP byte -/

set_option maxRecDepth 100000 in
/-- The mask `0x30` on a byte keeps bits 4 and 5. -/
theorem and_48_byte : ∀ x, x < 256 → x &&& 0x30 = 16 * (x / 16 % 4) := by
  decide

/-- The mask `0x30` keeps bits 4 and 5. -/
theorem and_48 (x : Nat) : x &&& 0x30 = 16 * (x / 16 % 4) := by
  have h1 : x &&& 0x30 = (x &&& 0xFF) &&& 0x30 := by
    rw [Nat.and_assoc]
    rfl
  have h2 : x &&& 0xFF = x % 256 := Nat.and_pow_two_sub_one_eq_mod x 8
  rw [h1, h2, and_48_byte (x % 256) (Nat.mod_lt _ (by norm_num))]
  omega

theorem and_3_eq_mod (x : Nat) : x &&& 0x03 = x % 4 :=
  Nat.and_pow_two_sub_one_eq_mod x 2

/-- Closed form of `rfalNfcDepPP2LR`: bits 4 and 5 of the argument. -/
theorem PP2LR_eq (PPx : Nat) : rfalNfcDepPP2LR PPx = PPx / 16 % 4 := by
  unfold rfalNfcDepPP2LR RFAL_NFCDEP_PP_LR_MASK RFAL_NFCDEP_PP_LR_SHIFT
  rw [and_48, Nat.shiftRight_eq_div_pow]
  unfold u8
  omega

/-- Closed form of `rfalNfcDepLR2PP`: the low two bits of the argument, moved
to bits 4 and 5; the shift never leaves 32 bits. -/
theorem LR2PP_eq (LRx : Nat) : rfalNfcDepLR2PP LRx = 16 * (LRx % 4) := by
  have h8 := u8_lt LRx
  unfold rfalNfcDepLR2PP RFAL_NFCDEP_PP_LR_MASK RFAL_NFCDEP_PP_LR_SHIFT
  rw [Nat.shiftLeft_eq, u32_of_lt (by omega), and_48]
  unfold u8
  omega

/-- C11: the PP byte encodes the length reduction losslessly: for every code
`lr` in 0..3, `rfalNfcDepPP2LR(rfalNfcDepLR2PP(lr)) = lr`, and for every byte
`x` the round trip gives `x & 0x03`. -/
theorem C11_LR2PP_roundtrip (lr : Nat) (hlr : lr ≤ 3) :
    rfalNfcDepPP2LR (rfalNfcDepLR2PP lr) = lr
      ∧ ∀ x, rfalNfcDepPP2LR (rfalNfcDepLR2PP x) = x &&& RFAL_NFCDEP_LR_VAL_MASK := by
  have key : ∀ x, rfalNfcDepPP2LR (rfalNfcDepLR2PP x) = x % 4 := by
    intro x
    rw [PP2LR_eq, LR2PP_eq]
    omega
  refine ⟨?_, fun x => ?_⟩
  · rw [key]
    omega
  · unfold RFAL_NFCDEP_LR_VAL_MASK
    rw [and_3_eq_mod]
    exact key x

/-- C11 at the code 3 (`RFAL_NFCDEP_LR_254`): the PP byte is `0x30` and reads
back as 3. -/
theorem C11_LR2PP_roundtrip_witness :
    rfalNfcDepLR2PP 3 = 0x30 ∧ rfalNfcDepPP2LR (rfalNfcDepLR2PP 3) = 3 :=
  ⟨by decide, (C11_LR2PP_roundtrip 3 (by decide)).1⟩

/-- C12: a packed bit-rate byte is at most `0x3F`, so it is never the
sentinel `RFAL_NFCDEP_BRS_MAINTAIN` (`0xC0`), for every argument. -/
theorem C12_Dx2BRS_not_maintain (br : Nat) :
    rfalNfcDepDx2BRS br ≤ 0x3F
      ∧ rfalNfcDepDx2BRS br ≠ RFAL_NFCDEP_BRS_MAINTAIN
      ∧ RFAL_NFCDEP_BRS_MAINTAIN = 0xC0 := by
  have h := Dx2BRS_eq br
  unfold RFAL_NFCDEP_BRS_MAINTAIN
  omega

/-- C13: the DSL_REQ and RLS_REQ length is 3 without a DID and
`3 + 1 = 4` with one, and the length without a DID equals
`RFAL_NFCDEP_LEN_MIN`. -/
theorem C13_DSL_RLS_len :
    RFAL_NFCDEP_DSL_RLS_LEN_NO_DID = 3
      ∧ RFAL_NFCDEP_DSL_RLS_LEN_DID = RFAL_NFCDEP_DSL_RLS_LEN_NO_DID + 1
      ∧ RFAL_NFCDEP_DSL_RLS_LEN_DID = 4
      ∧ RFAL_NFCDEP_DSL_RLS_LEN_NO_DID = RFAL_NFCDEP_LEN_MIN := by
  decide

/-! ## Waiting time against the maximum frame waiting time -/

theorem and_15_eq_mod (x : Nat) : x &&& 0x0F = x % 16 :=
  Nat.and_pow_two_sub_one_eq_mod x 4

/-- C15: the derived waiting time is at most `RFAL_NFCDEP_MAX_FWT` (`2^20`)
exactly when the four-bit code is at most `RFAL_NFCDEP_WT_TRG_MAX_D10` (8),
and the code 8 gives `RFAL_NFCDEP_MAX_FWT` itself. -/
theorem C15_WT2RWT_le_MAX_FWT_iff (wt : Nat) :
    (rfalNfcDepWT2RWT wt ≤ RFAL_NFCDEP_MAX_FWT
        ↔ (wt &&& 0x0F) ≤ RFAL_NFCDEP_WT_TRG_MAX_D10)
      ∧ rfalNfcDepWT2RWT 8 = RFAL_NFCDEP_MAX_FWT := by
  refine ⟨?_, by decide⟩
  rw [WT2RWT_eq, MAX_FWT_eq, and_15_eq_mod, Nat.pow_le_pow_iff_right (by norm_num)]
  unfold RFAL_NFCDEP_WT_TRG_MAX_D10
  omega

/-- C16: `rfalNfcDepWT2RWT` uses only the low four bits of its argument, its
shift amount is at most 27, so the shift stays inside 32 bits, and the result
is the power of two `2^((wt & 0x0F)+12)`, between `2^12` and `2^27`. -/
theorem C16_WT2RWT_total (wt : Nat) :
    rfalNfcDepWT2RWT wt = rfalNfcDepWT2RWT (wt &&& 0x0F)
      ∧ (wt &&& 0x0F) + 12 ≤ 27
      ∧ 1 <<< ((wt &&& 0x0F) + 12) < 2 ^ 32
      ∧ rfalNfcDepWT2RWT wt = 1 <<< ((wt &&& 0x0F) + 12)
      ∧ rfalNfcDepWT2RWT wt = 2 ^ ((wt &&& 0x0F) + 12)
      ∧ 2 ^ 12 ≤ rfalNfcDepWT2RWT wt
      ∧ rfalNfcDepWT2RWT wt ≤ 2 ^ 27 := by
  have h16 : wt % 16 < 16 := Nat.mod_lt _ (by norm_num)
  have hlo : 2 ^ 12 ≤ 2 ^ (wt % 16 + 12) := Nat.pow_le_pow_right (by norm_num) (by omega)
  have hhi : 2 ^ (wt % 16 + 12) ≤ 2 ^ 27 := Nat.pow_le_pow_right (by norm_num) (by omega)
  have hmm : wt % 16 % 16 = wt % 16 := by omega
  rw [WT2RWT_eq, WT2RWT_eq, and_15_eq_mod, Nat.one_shiftLeft, hmm]
  refine ⟨rfl, by omega, ?_, rfl, rfl, hlo, hhi⟩
  calc 2 ^ (wt % 16 + 12) ≤ 2 ^ 27 := hhi
    _ < 2 ^ 32 := by norm_num

/-- C17: the waiting time of the largest Initiator code,
`RFAL_NFCDEP_RWT_INI_MAX = rfalNfcDepWT2RWT(RFAL_NFCDEP_WT_INI_MAX)`, is the
documented maximum `(256*16)*2^14 = 0x100000*64`, that is
`64 * RFAL_NFCDEP_MAX_FWT`. -/
theorem C17_RWT_INI_MAX :
    RFAL_NFCDEP_RWT_INI_MAX = rfalNfcDepWT2RWT RFAL_NFCDEP_WT_INI_MAX
      ∧ RFAL_NFCDEP_RWT_INI_MAX = 256 * 16 * 2 ^ 14
      ∧ 256 * 16 * 2 ^ 14 = 0x100000 * 64
      ∧ RFAL_NFCDEP_RWT_INI_MAX = 64 * RFAL_NFCDEP_MAX_FWT := by
  decide

/-! ## Frame size from a received PP byte -/

/-- C18: for every byte `pp`, `rfalNfcDepPP2LR(pp)` is in 0..3 and is read
from bits 4 and 5 of `pp` alone, so the frame size derived from it is one of
64, 128, 192, 254. -/
theorem C18_PP2LR_valid (pp : Nat) :
    rfalNfcDepPP2LR pp ≤ 3
      ∧ rfalNfcDepPP2LR pp = rfalNfcDepPP2LR (pp &&& RFAL_NFCDEP_PP_LR_MASK)
      ∧ rfalNfcDepPP2LR pp = (pp >>> RFAL_NFCDEP_PP_LR_SHIFT) &&& 0x03
      ∧ (rfalNfcDepLR2FS (rfalNfcDepPP2LR pp) = 64
          ∨ rfalNfcDepLR2FS (rfalNfcDepPP2LR pp) = 128
          ∨ rfalNfcDepLR2FS (rfalNfcDepPP2LR pp) = 192
          ∨ rfalNfcDepLR2FS (rfalNfcDepPP2LR pp) = 254) := by
  have h4 : pp / 16 % 4 < 4 := Nat.mod_lt _ (by norm_num)
  have hu : u16 (pp / 16 % 4) = pp / 16 % 4 := u16_of_lt (by omega)
  refine ⟨?_, ?_, ?_, ?_⟩
  · rw [PP2LR_eq]
    omega
  · unfold RFAL_NFCDEP_PP_LR_MASK
    rw [PP2LR_eq, PP2LR_eq, and_48]
    omega
  · unfold RFAL_NFCDEP_PP_LR_SHIFT
    rw [PP2LR_eq, and_3_eq_mod, Nat.shiftRight_eq_div_pow]
  · rw [PP2LR_eq, LR2FS_eq, hu]
    omega

/-- C19: `rfalNfcDepLR2PP` sets no bit outside bits 4 and 5 (the complement of
`0x30` is `0xCF` in a byte and `0xFFFFFFCF` in 32 bits), and for every
code `lr` in 0..3 and every `f` with `f & 0x30 = 0`, the length reduction
read from `rfalNfcDepLR2PP(lr) | f` is `lr`. -/
theorem C19_LR2PP_frame (lr f : Nat) (hlr : lr ≤ 3) (hf : f &&& RFAL_NFCDEP_PP_LR_MASK = 0) :
    (∀ x, rfalNfcDepLR2PP x &&& 0xCF = 0 ∧ rfalNfcDepLR2PP x &&& 0xFFFFFFCF = 0)
      ∧ rfalNfcDepPP2LR (rfalNfcDepLR2PP lr ||| f) = lr := by
  refine ⟨fun x => ?_, ?_⟩
  · rw [LR2PP_eq]
    have h4 : x % 4 < 4 := Nat.mod_lt _ (by norm_num)
    generalize x % 4 = y at h4
    interval_cases y <;> decide
  · unfold RFAL_NFCDEP_PP_LR_MASK at hf
    have hor : (rfalNfcDepLR2PP lr ||| f) &&& 0x30 = rfalNfcDepLR2PP lr &&& 0x30 := by
      rw [Nat.and_distrib_right, hf, Nat.or_zero]
    rw [LR2PP_eq, Nat.mod_eq_of_lt (by omega : lr < 4), and_48, and_48] at hor
    rw [PP2LR_eq, LR2PP_eq, Nat.mod_eq_of_lt (by omega : lr < 4)]
    omega

/-- C19 at the code 2 with the low PP bits `0x02` set beside it. -/
theorem C19_LR2PP_frame_witness :
    rfalNfcDepLR2PP 2 &&& 0xCF = 0 ∧ rfalNfcDepPP2LR (rfalNfcDepLR2PP 2 ||| 0x02) = 2 :=
  ⟨((C19_LR2PP_frame 2 0x02 (by decide) (by decide)).1 2).1,
    (C19_LR2PP_frame 2 0x02 (by decide) (by decide)).2⟩

/-! ## Room for payload after the DEP header -/

/-- C20: for every length-reduction code `c` in 0..3 the frame size exceeds
`RFAL_NFCDEP_DEPREQ_HEADER_LEN` by at least 59, so `frame size - header length`
does not wrap and is positive; the header length is 5, one byte for each of
CMD_TYPE, CMD, PFB, DID and NAD. -/
theorem C20_payload_capacity (c : Nat) (hc : c ≤ 3) :
    RFAL_NFCDEP_DEPREQ_HEADER_LEN + 59 ≤ rfalNfcDepLR2FS c
      ∧ 59 ≤ rfalNfcDepLR2FS c - RFAL_NFCDEP_DEPREQ_HEADER_LEN
      ∧ 0 < rfalNfcDepLR2FS c - RFAL_NFCDEP_DEPREQ_HEADER_LEN
      ∧ RFAL_NFCDEP_DEPREQ_HEADER_LEN = 5
      ∧ RFAL_NFCDEP_DEPREQ_HEADER_LEN
          = RFAL_NFCDEP_CMDTYPE_LEN + RFAL_NFCDEP_CMD_LEN + RFAL_NFCDEP_DEP_PFB_LEN
            + RFAL_NFCDEP_DID_LEN + 1 := by
  have hu : u16 c = c := u16_of_lt (by omega)
  have hfs := LR2FS_eq c
  rw [hu] at hfs
  rw [hfs]
  refine ⟨?_, ?_, ?_, rfl, rfl⟩ <;> unfold RFAL_NFCDEP_DEPREQ_HEADER_LEN <;> omega

/-- C20 at the code 0, the smallest frame size: 64 - 5 = 59. -/
theorem C20_payload_capacity_witness :
    rfalNfcDepLR2FS 0 - RFAL_NFCDEP_DEPREQ_HEADER_LEN = 59
      ∧ 59 ≤ rfalNfcDepLR2FS 0 - RFAL_NFCDEP_DEPREQ_HEADER_LEN :=
  ⟨by decide, (C20_payload_capacity 0 (by decide)).2.1⟩

/-! ## Fragmentation and reassembly -/

theorem depTxChunks_of_le (cap fuel pni : Nat) (payload : List Nat)
    (h : payload.length ≤ cap) :
    depTxChunks cap fuel pni payload = [⟨pni, false, payload⟩] := by
  cases fuel with
  | zero => rfl
  | succ n => simp only [depTxChunks, if_pos h]

theorem depTxChunks_of_gt (cap fuel pni : Nat) (payload : List Nat)
    (h : cap < payload.length) :
    depTxChunks cap (fuel + 1) pni payload
      = ⟨pni, true, payload.take cap⟩
          :: depTxChunks cap fuel ((pni + 1) % 4) (payload.drop cap) := by
  simp only [depTxChunks, if_neg (Nat.not_le.mpr h)]

theorem depReassemble_last (s : DepRxState) (payload : List Nat) :
    depReassemble s [⟨s.expected, false, payload⟩] = some (s.rxBuf ++ payload, []) := by
  simp [depReassemble, depRxStep]

theorem depReassemble_chained (s : DepRxState) (chunk : List Nat) (rest : List InformationPdu) :
    depReassemble s (⟨s.expected, true, chunk⟩ :: rest)
      = depReassemble ⟨(s.expected + 1) % 4, s.rxBuf ++ chunk⟩ rest := by
  simp [depReassemble, depRxStep]

/-- Reassembling what was cut from a payload gives the payload back, behind
what the receive buffer already held, whenever a PDU can carry a byte. -/
theorem depReassemble_depTxChunks (cap : Nat) (hcap : 0 < cap) :
    ∀ (fuel pni : Nat) (payload buf : List Nat), payload.length ≤ fuel →
      depReassemble ⟨pni, buf⟩ (depTxChunks cap fuel pni payload)
        = some (buf ++ payload, []) := by
  intro fuel
  induction fuel with
  | zero =>
    intro pni payload buf h
    rw [depTxChunks_of_le cap 0 pni payload (by omega)]
    exact depReassemble_last ⟨pni, buf⟩ payload
  | succ n ih =>
    intro pni payload buf h
    by_cases hle : payload.length ≤ cap
    · rw [depTxChunks_of_le cap (n + 1) pni payload hle]
      exact depReassemble_last ⟨pni, buf⟩ payload
    · rw [depTxChunks_of_gt cap n pni payload (by omega)]
      rw [depReassemble_chained ⟨pni, buf⟩]
      have hdrop : (payload.drop cap).length ≤ n := by
        rw [List.length_drop]
        omega
      rw [ih ((pni + 1) % 4) (payload.drop cap) (buf ++ payload.take cap) hdrop,
        List.append_assoc, List.take_append_drop]

/-- No PDU cut from a payload carries more than `cap` bytes. -/
theorem depTxChunks_inf_le (cap : Nat) (hcap : 0 < cap) :
    ∀ (fuel pni : Nat) (payload : List Nat), payload.length ≤ fuel →
      ∀ p ∈ depTxChunks cap fuel pni payload, p.inf.length ≤ cap := by
  intro fuel
  induction fuel with
  | zero =>
    intro pni payload h p hp
    rw [depTxChunks_of_le cap 0 pni payload (by omega), List.mem_singleton] at hp
    rw [hp]
    show payload.length ≤ cap
    omega
  | succ n ih =>
    intro pni payload h p hp
    by_cases hle : payload.length ≤ cap
    · rw [depTxChunks_of_le cap (n + 1) pni payload hle, List.mem_singleton] at hp
      rw [hp]
      exact hle
    · rw [depTxChunks_of_gt cap n pni payload (by omega), List.mem_cons] at hp
      have hdrop : (payload.drop cap).length ≤ n := by
        rw [List.length_drop]
        omega
      rcases hp with hp | hp
      · rw [hp]
        show (payload.take cap).length ≤ cap
        rw [List.length_take]
        omega
      · exact ih ((pni + 1) % 4) (payload.drop cap) hdrop p hp

/-- The chaining flag is true on every PDU cut from a payload but the last. -/
theorem depTxChunks_chaining (cap : Nat) :
    ∀ (fuel pni : Nat) (payload : List Nat),
      (depTxChunks cap fuel pni payload).map (fun p => p.chaining)
        = List.replicate ((depTxChunks cap fuel pni payload).length - 1) true ++ [false] := by
  intro fuel
  induction fuel with
  | zero =>
    intro pni payload
    rfl
  | succ n ih =>
    intro pni payload
    by_cases hle : payload.length ≤ cap
    · rw [depTxChunks_of_le cap (n + 1) pni payload hle]
      rfl
    · rw [depTxChunks_of_gt cap n pni payload (by omega)]
      have hrec := ih ((pni + 1) % 4) (payload.drop cap)
      have hpos : 0 < (depTxChunks cap n ((pni + 1) % 4) (payload.drop cap)).length := by
        have hl := congrArg List.length hrec
        rw [List.length_map, List.length_append] at hl
        simp only [List.length_cons, List.length_nil] at hl
        omega
      rw [List.map_cons, hrec, List.length_cons, Nat.add_sub_cancel]
      generalize (depTxChunks cap n ((pni + 1) % 4) (payload.drop cap)).length = k at hpos
      obtain ⟨j, rfl⟩ : ∃ j, k = j + 1 := ⟨k - 1, by omega⟩
      rfl

/-- A payload of `3 * cap + 20` bytes is cut into four PDUs, `20 ≤ cap`. -/
theorem depTxChunks_four (cap pni : Nat) (payload : List Nat) (hcap : 20 ≤ cap)
    (hlen : payload.length = 3 * cap + 20) :
    (depTxChunks cap payload.length pni payload).length = 4 := by
  have e0 : payload.length = (3 * cap + 19) + 1 := by omega
  rw [e0, depTxChunks_of_gt cap _ pni payload (by omega)]
  have h1 : (payload.drop cap).length = 2 * cap + 20 := by
    rw [List.length_drop]; omega
  have e1 : 3 * cap + 19 = (3 * cap + 18) + 1 := by omega
  rw [e1, depTxChunks_of_gt cap _ _ (payload.drop cap) (by omega)]
  have h2 : ((payload.drop cap).drop cap).length = cap + 20 := by
    rw [List.length_drop]; omega
  have e2 : 3 * cap + 18 = (3 * cap + 17) + 1 := by omega
  rw [e2, depTxChunks_of_gt cap _ _ ((payload.drop cap).drop cap) (by omega)]
  have h3 : (((payload.drop cap).drop cap).drop cap).length = 20 := by
    rw [List.length_drop]; omega
  rw [depTxChunks_of_le cap _ _ (((payload.drop cap).drop cap).drop cap) (by omega)]
  rfl

/-- C14: for every negotiated frame size `FS` in 64, 128, 192, 254 and every
payload of `3*FS + 5` bytes, the engine cuts the payload into Information PDUs
of at most `FS - RFAL_NFCDEP_DEPREQ_HEADER_LEN` bytes, four of them, with
chaining true on all but the last, and reassembling them gives the payload
back byte for byte, the receive completing on the last PDU. -/
theorem C14_fragment_roundtrip (FS pni : Nat) (payload : List Nat)
    (hFS : FS = 64 ∨ FS = 128 ∨ FS = 192 ∨ FS = 254)
    (hlen : payload.length = 3 * FS + 5) :
    depReassemble ⟨pni, []⟩ (depFragment FS pni payload) = some (payload, [])
      ∧ (∀ p ∈ depFragment FS pni payload,
          p.inf.length ≤ FS - RFAL_NFCDEP_DEPREQ_HEADER_LEN)
      ∧ (depFragment FS pni payload).map (fun p => p.chaining) = [true, true, true, false] := by
  have hhdr : RFAL_NFCDEP_DEPREQ_HEADER_LEN = 5 := rfl
  have hcap : 20 ≤ FS - RFAL_NFCDEP_DEPREQ_HEADER_LEN := by
    rw [hhdr]; omega
  have hlen2 : payload.length = 3 * (FS - RFAL_NFCDEP_DEPREQ_HEADER_LEN) + 20 := by
    rw [hhdr]; omega
  unfold depFragment
  refine ⟨?_, ?_, ?_⟩
  · have h := depReassemble_depTxChunks (FS - RFAL_NFCDEP_DEPREQ_HEADER_LEN) (by omega)
      payload.length pni payload [] (Nat.le_refl _)
    rw [List.nil_append] at h
    exact h
  · exact depTxChunks_inf_le (FS - RFAL_NFCDEP_DEPREQ_HEADER_LEN) (by omega)
      payload.length pni payload (Nat.le_refl _)
  · rw [depTxChunks_chaining, depTxChunks_four _ pni payload hcap hlen2]
    rfl

/-- C14 at the frame size 64 and the payload of 197 bytes `0, 1, ..., 196`,
starting from the sequence number 3. -/
theorem C14_fragment_roundtrip_witness :
    depReassemble ⟨3, []⟩ (depFragment 64 3 (List.range 197)) = some (List.range 197, [])
      ∧ (depFragment 64 3 (List.range 197)).map (fun p => p.chaining)
          = [true, true, true, false] :=
  ⟨(C14_fragment_roundtrip 64 3 (List.range 197) (Or.inl rfl) (by simp)).1,
    (C14_fragment_roundtrip 64 3 (List.range 197) (Or.inl rfl) (by simp)).2.2⟩

/-! ## Operation parameter bits -/

/-- C21, as stated, fails: `RFAL_NFCDEP_OPER_EMPTY_DEP_DIS` is `0x04`, not bit 1
(`0x02`), and `RFAL_NFCDEP_OPER_FULL_MI_EN` is `0x08`, not bit 2 (`0x04`);
bit 1 is `RFAL_NFCDEP_OPER_ATN_EN`. -/
theorem C21_counterexample :
    ¬ (RFAL_NFCDEP_OPER_RTOX_REQ_DIS = 0x01 ∧ RFAL_NFCDEP_OPER_EMPTY_DEP_DIS = 0x02
        ∧ RFAL_NFCDEP_OPER_FULL_MI_EN = 0x04)
      ∧ RFAL_NFCDEP_OPER_EMPTY_DEP_DIS ≠ 0x02
      ∧ RFAL_NFCDEP_OPER_FULL_MI_EN ≠ 0x04
      ∧ RFAL_NFCDEP_OPER_ATN_EN = 0x02 := by
  decide

/-- C21, amended: the operation parameter is a bit mask whose high four bits
are 0 and whose low four bits are, from most to least significant,
`RFAL_NFCDEP_OPER_FULL_MI_EN` (bit 3, `0x08`), `RFAL_NFCDEP_OPER_EMPTY_DEP_DIS`
(bit 2, `0x04`), `RFAL_NFCDEP_OPER_ATN_EN` (bit 1, `0x02`) and
`RFAL_NFCDEP_OPER_RTOX_REQ_DIS` (bit 0, `0x01`); the opposite setting of each
flag is 0. -/
theorem C21_OPER_bits :
    RFAL_NFCDEP_OPER_RTOX_REQ_DIS = 1 <<< 0 ∧ RFAL_NFCDEP_OPER_RTOX_REQ_DIS = 0x01
      ∧ RFAL_NFCDEP_OPER_ATN_EN = 1 <<< 1 ∧ RFAL_NFCDEP_OPER_ATN_EN = 0x02
      ∧ RFAL_NFCDEP_OPER_EMPTY_DEP_DIS = 1 <<< 2 ∧ RFAL_NFCDEP_OPER_EMPTY_DEP_DIS = 0x04
      ∧ RFAL_NFCDEP_OPER_FULL_MI_EN = 1 <<< 3 ∧ RFAL_NFCDEP_OPER_FULL_MI_EN = 0x08
      ∧ RFAL_NFCDEP_OPER_RTOX_REQ_EN = 0 ∧ RFAL_NFCDEP_OPER_ATN_DIS = 0
      ∧ RFAL_NFCDEP_OPER_EMPTY_DEP_EN = 0 ∧ RFAL_NFCDEP_OPER_FULL_MI_DIS = 0
      ∧ (RFAL_NFCDEP_OPER_FULL_MI_EN ||| RFAL_NFCDEP_OPER_EMPTY_DEP_DIS
          ||| RFAL_NFCDEP_OPER_ATN_EN ||| RFAL_NFCDEP_OPER_RTOX_REQ_DIS) = 0x0F
      ∧ (RFAL_NFCDEP_OPER_FULL_MI_EN ||| RFAL_NFCDEP_OPER_EMPTY_DEP_DIS
          ||| RFAL_NFCDEP_OPER_ATN_EN ||| RFAL_NFCDEP_OPER_RTOX_REQ_DIS) &&& 0xF0 = 0 := by
  decide

end NfcDep
